import Mathlib

/-!
Shallow embedding of the `blogger_bot_project` repository.

The repository has two entry points:
* `src/bot.py` — a telebot-based menu bot (time, date, movie details,
  movie ratings, URL upload).  `src/utils.py`, despite its name, is a
  second copy of the same handlers (with a pyrogram client added); the
  dispatch and handler logic embedded below is line-for-line identical
  in the two files.
* `src/main.py` — a python-telegram-bot entry point posting to Google
  Blogger (`/start`, `/authenticate`, `/post`, catch-all text).

External services (movie API, clock, Telegram transport, Blogger API)
are modelled as parameters/oracles; handler invocations are embedded as
pure functions from those oracles to the ordered list of observable
effects (adapter calls, messages sent, next-step registrations,
Blogger API calls).  The chat id, constant within one handler
invocation, is omitted from effect payloads.
-/

namespace MovieBot

/-- A movie search result as consumed by `process_movie_request`:
the fields the code reads are `movie["Title"]` and `movie["Year"]`. -/
structure Movie where
  title : String
  year : String
deriving DecidableEq, Repr

instance : Inhabited Movie := ⟨⟨"", ""⟩⟩

/-- An inline keyboard button: display label and `callback_data` tag. -/
structure Button where
  label : String
  callback_data : String
deriving DecidableEq, Repr

/-- The handlers that `bot.register_next_step_handler` can arm in
`callback_query` (src/bot.py lines 70, 76, 83, 90). -/
inductive NextHandler where
  | processMovieRequest
  | processMovieRatingRequest
  | processUrlUpload
  | processRename
deriving DecidableEq, Repr

/-- Observable effects of one handler invocation, in program order. -/
inductive Eff where
  /-- A call into an external adapter (clock, movie API). -/
  | adapter (name : String)
  /-- `bot.answer_callback_query`, with its optional `text` argument. -/
  | answerCallback (text : Option String)
  /-- `bot.send_message`, with optional `parse_mode` and inline buttons. -/
  | send (text : String) (parseMode : Option String) (buttons : List Button)
  /-- `bot.reply_to`, with inline buttons. -/
  | reply (text : String) (buttons : List Button)
  /-- `bot.register_next_step_handler`: arms `h` for the next text message. -/
  | register (h : NextHandler)
  /-- `process_file_upload(message, custom_file_name=...)`. -/
  | fileUpload (customName : Option String)
  /-- `logger.error` inside an `except` clause of the named function. -/
  | logError (context : String)
deriving DecidableEq, Repr

/-- The generic apology every `except` clause sends. -/
def genericOops : String := "Oops! Something went wrong. Please try again later."

/-- Shallow embedding of `process_movie_request` (src/bot.py lines
111-146; identical copy at src/utils.py lines 117-152), exception-free
run.  `search` and `details` stand for the adapters `search_movies`
(returning `None` on failure) and `get_movie_details`. -/
def process_movie_request (search : String → Option (List Movie))
    (details : String → String) (text : String) : List Eff :=
  Eff.adapter "search_movies" ::
  match search text with
  | none => [.send "Movie search failed. Please try again later." none []]
  | some movies =>
    if movies.length = 1 then
      [.adapter "get_movie_details",
       .send (details (movies.getD 0 default).title) (some "Markdown") []]
    else if movies.length > 1 then
      [.send "Select the correct movie:" none
        (movies.map (fun m => ⟨m.title ++ " (" ++ m.year ++ ")", m.title⟩))]
    else
      [.send "Movie not found." none []]

/-- The fixed callback tags `callback_query` recognizes before falling
through to the movie-selection branch. -/
def fixedTags : List String :=
  ["time", "date", "movie_details", "movie_ratings", "url_upload",
   "rename", "default", "cancel"]

/-- Shallow embedding of the dispatch in `callback_query` (src/bot.py
lines 53-101; identical copy at src/utils.py lines 59-107): the ordered
effects of the try-block for a given `call.data` tag.  `now`, `today`
and `details` stand for the adapters `get_current_time`,
`get_current_date` and `get_movie_details`. -/
def callback_query_effects (now today : String) (details : String → String)
    (tag : String) : List Eff :=
  if tag = "time" then
    [.adapter "get_current_time",
     .answerCallback (some ("Current time: " ++ now))]
  else if tag = "date" then
    [.adapter "get_current_date",
     .answerCallback (some ("Today's date: " ++ today))]
  else if tag = "movie_details" then
    [.answerCallback none,
     .send "Send me a movie title to get details" none [],
     .register .processMovieRequest]
  else if tag = "movie_ratings" then
    [.answerCallback none,
     .send "Send me a movie title to get ratings" none [],
     .register .processMovieRatingRequest]
  else if tag = "url_upload" then
    [.answerCallback none,
     .send "Send me the URL of the file you want to upload:" none [],
     .register .processUrlUpload]
  else if tag = "rename" then
    [.answerCallback none,
     .send "Enter a new file name (without extension):" none [],
     .register .processRename]
  else if tag = "default" ∨ tag = "cancel" then
    [.answerCallback none, .fileUpload none]
  else
    [.answerCallback none,
     .adapter "get_movie_details",
     .send (details tag) (some "Markdown") []]

/-- The telebot next-step registration state for one conversation:
either nothing is armed, or one handler awaits the next text message. -/
inductive NextStep where
  | idle
  | armed (h : NextHandler)
deriving DecidableEq, Repr

/-- How one effect changes the next-step registration state: only
`register_next_step_handler` touches it. -/
def applyEff (s : NextStep) : Eff → NextStep
  | .register h => .armed h
  | _ => s

/-- The next-step state after a list of effects runs from state `s`. -/
def runEffects (s : NextStep) (effs : List Eff) : NextStep :=
  effs.foldl applyEff s

/-- The user-visible message texts among a list of effects
(`send_message` and `reply_to`). -/
def userMessages : List Eff → List String
  | [] => []
  | .send t _ _ :: rest => t :: userMessages rest
  | .reply t _ :: rest => t :: userMessages rest
  | _ :: rest => userMessages rest

/-- A run of `callback_query` including its `try/except` (src/bot.py
lines 53-107).  `exc = none` is the exception-free run; `exc = some k`
models an exception raised after the first `k` effects of the
try-block, whereupon the `except` clause logs the error and sends the
generic apology (lines 103-107) — it touches no next-step state. -/
def callback_query_run (now today : String) (details : String → String)
    (tag : String) (s : NextStep) (exc : Option Nat) : NextStep × List Eff :=
  let effs := callback_query_effects now today details tag
  match exc with
  | none => (runEffects s effs, effs)
  | some k =>
    let pre := effs.take k
    (runEffects s pre,
     pre ++ [.logError "callback_query", .send genericOops none []])

/-- The welcome text of `send_welcome` (src/bot.py line 42). -/
def welcomeText : String := "Hello! I'm a helpful bot. Choose an option:"

/-- The five inline buttons `send_welcome` attaches (src/bot.py lines
34-40). -/
def welcomeButtons : List Button :=
  [⟨"Time", "time"⟩, ⟨"Date", "date"⟩,
   ⟨"Movie Details", "movie_details"⟩, ⟨"Movie Ratings", "movie_ratings"⟩,
   ⟨"URL Upload", "url_upload"⟩]

/-- A run of `send_welcome` (src/bot.py lines 29-49; identical copy at
src/utils.py lines 35-55) including its `try/except`: the try-block is
the single `reply_to` with the welcome markup; on an exception after the
first `k` effects the `except` clause logs and replies the apology. -/
def send_welcome_run (s : NextStep) (exc : Option Nat) : NextStep × List Eff :=
  let effs : List Eff := [.reply welcomeText welcomeButtons]
  match exc with
  | none => (runEffects s effs, effs)
  | some k =>
    let pre := effs.take k
    (runEffects s pre,
     pre ++ [.logError "send_welcome", .reply genericOops []])

/-- A downloaded-but-not-yet-sent file awaiting a naming decision
(spec §3, "PendingUpload"). -/
structure PendingUpload where
  originalName : String
deriving DecidableEq, Repr

/-- Modelled from the spec: the body of `process_file_upload` lives in
the repository's `utils` module, which is not among the provided source
files (the file named src/utils.py is a second copy of the bot
handlers, and it imports `process_file_upload` from `utils` like
src/bot.py does).  Per spec §4.2 and the call-site comment "Use default
name if \x22default\x22 is clicked", finalizing with
`custom_file_name=None` sends the pending file under its original name;
a custom name replaces it.  Returns the display name the file is sent
under. -/
def process_file_upload (pending : PendingUpload)
    (customName : Option String) : String :=
  customName.getD pending.originalName

end MovieBot

namespace BloggerBot

/-- A Blogger post as manipulated by `post_to_blogger`: the fields the
code reads or writes are `id`, `title`, `content`, `url`. -/
structure Post where
  id : String
  title : String
  content : String
  url : String
deriving DecidableEq, Repr

/-- Result of one Blogger API call: the success payload, or the text of
the `HttpError` the call raised. -/
inductive ApiResult (α : Type) where
  | ok (a : α)
  | httpError (e : String)
deriving DecidableEq, Repr

/-- Oracle for the Blogger service held in `context.user_data`: the
response of each API call `post_to_blogger` can make.  `listPosts`
yields the `items` of `posts().list(blogId=...)`. -/
structure BlogApi where
  listPosts : ApiResult (List Post)
  getPost : String → ApiResult Post
  updatePost : String → Post → ApiResult Post
  insertPost : String → String → ApiResult Post

/-- Record of one Blogger API call made by the handler, with the
arguments the code passes. -/
inductive ApiCall where
  | list
  | get (postId : String)
  | update (postId : String) (body : Post)
  | insert (title content : String)
deriving DecidableEq, Repr

/-- The body extraction on src/main.py line 77,
`update.message.text[6:]`: drop the first six characters.  The handler
applies it to every message it receives — `/post` commands and, because
`main` registers the same function as the catch-all text handler
(line 128), plain text messages as well. -/
def messageBody (text : String) : String :=
  text.drop 6

/-- The loop test on src/main.py line 89: first post whose title is
exactly `"Draft Post"`. -/
def isDraftPost (p : Post) : Bool :=
  p.title = "Draft Post"

/-- Shallow embedding of `post_to_blogger` (src/main.py lines 70-108).
`hasService` models whether `context.user_data` holds a service handle;
the result is the ordered list of replies sent and the ordered trace of
Blogger API calls made.  The `try` wraps every API call; an `HttpError`
from any of them is answered with `"An error occurred: " ++ e`. -/
def post_to_blogger (api : BlogApi) (hasService : Bool) (text : String) :
    List String × List ApiCall :=
  if !hasService then
    (["You need to authenticate first. Use /authenticate."], [])
  else
    let message := messageBody text
    if message = "" then
      (["Please provide the content for the post."], [])
    else
      match api.listPosts with
      | .httpError e => (["An error occurred: " ++ e], [.list])
      | .ok items =>
        match items.find? isDraftPost with
        | some found =>
          match api.getPost found.id with
          | .httpError e =>
            (["An error occurred: " ++ e], [.list, .get found.id])
          | .ok post =>
            let body := { post with content := message }
            match api.updatePost found.id body with
            | .httpError e =>
              (["An error occurred: " ++ e],
               [.list, .get found.id, .update found.id body])
            | .ok updated =>
              (["Post updated: " ++ updated.url],
               [.list, .get found.id, .update found.id body])
        | none =>
          match api.insertPost "New Draft Post" message with
          | .httpError e =>
            (["An error occurred: " ++ e],
             [.list, .insert "New Draft Post" message])
          | .ok newPost =>
            (["New post created: " ++ newPost.url],
             [.list, .insert "New Draft Post" message])

/-- A stored Google credential as tested by
`authenticate_google_account`: the Python truthiness of `creds.valid`,
`creds.expired` and `creds.refresh_token`. -/
structure Creds where
  valid : Bool
  expired : Bool
  refresh_token : Bool
deriving DecidableEq, Repr

/-- The externally observable steps of `authenticate_google_account`,
in program order. -/
inductive AuthStep where
  | loadTokenPickle
  | refreshCall
  | runLocalServer
  | saveTokenPickle
  | buildService
deriving DecidableEq, Repr

/-- A Python exception escaping the handler uncaught. -/
inductive PyError where
  | nameError (name : String)
deriving DecidableEq, Repr

/-- Outcome of `authenticate_google_account`: the ordered trace of
steps performed, the credential left on disk in `token.pickle`, and the
returned service handle (`none` when `build` raised `HttpError`, which
the function catches and logs). -/
structure AuthOutcome where
  steps : List AuthStep
  disk : Option Creds
  service : Option Creds
deriving DecidableEq, Repr

/-- Shallow embedding of `authenticate_google_account` (src/main.py
lines 27-50).  `tokenFile` is the content of `token.pickle` when the
file exists, `flowCreds` the credential
`InstalledAppFlow...run_local_server` would return, `buildOk` whether
`build("blogger", "v3", credentials=creds)` succeeds.  The name
`Request` on line 36 is bound by no import in src/main.py (only the
module `requests` is imported), so evaluating `Request()` in the
refresh branch raises `NameError`, which no `try` in the function
covers. -/
def authenticate_google_account (tokenFile : Option Creds)
    (flowCreds : Creds) (buildOk : Bool) : Except PyError AuthOutcome :=
  match tokenFile with
  | none =>
    .ok { steps := [.runLocalServer, .saveTokenPickle, .buildService],
          disk := some flowCreds,
          service := if buildOk then some flowCreds else none }
  | some c =>
    if c.valid then
      .ok { steps := [.loadTokenPickle, .buildService],
            disk := some c,
            service := if buildOk then some c else none }
    else if c.expired ∧ c.refresh_token then
      .error (.nameError "Request")
    else
      .ok { steps := [.loadTokenPickle, .runLocalServer,
                      .saveTokenPickle, .buildService],
            disk := some flowCreds,
            service := if buildOk then some flowCreds else none }

/-- A concrete Blogger API oracle whose blog holds one post titled
exactly `"Draft Post"`; `get` returns it, `update` echoes the body it
is given, `insert` mints a fresh post at a fresh URL. -/
def demoApi : BlogApi :=
  { listPosts := .ok [⟨"p1", "Draft Post", "old", "http://b/p1"⟩],
    getPost := fun _ => .ok ⟨"p1", "Draft Post", "old", "http://b/p1"⟩,
    updatePost := fun _ body => .ok body,
    insertPost := fun t c => .ok ⟨"p2", t, c, "http://b/p2"⟩ }

/-- A concrete Blogger API oracle whose blog is empty; `insert` mints a
fresh post at a fresh URL. -/
def demoApiEmpty : BlogApi :=
  { listPosts := .ok [],
    getPost := fun _ => .httpError "no such post",
    updatePost := fun _ _ => .httpError "no such post",
    insertPost := fun t c => .ok ⟨"p2", t, c, "http://b/p2"⟩ }

end BloggerBot

/-- `userMessages` distributes over list append: the messages of a
concatenated effect trace are the messages of the pieces. -/
theorem MovieBot.userMessages_append (a b : List MovieBot.Eff) :
    MovieBot.userMessages (a ++ b) =
      MovieBot.userMessages a ++ MovieBot.userMessages b := by
  induction a with
  | nil => rfl
  | cons e rest ih => cases e <;> simp [MovieBot.userMessages, ih]

/-- C1: the movie-details handler's reply is determined by the search
adapter's result: adapter failure (`None`) sends exactly one "search
failed" message; an empty list sends exactly one "Movie not found."
message; exactly one result sends one Markdown-formatted detail card
with no buttons; two or more results send one selection message with
one button per result labeled "title (year)" whose callback tag is the
result's title, and no detail card. -/
theorem movie_request_outcomes (details : String → String) (text : String) :
    MovieBot.process_movie_request (fun _ => none) details text =
      [.adapter "search_movies",
       .send "Movie search failed. Please try again later." none []] ∧
    MovieBot.process_movie_request (fun _ => some []) details text =
      [.adapter "search_movies", .send "Movie not found." none []] ∧
    (∀ m : MovieBot.Movie,
      MovieBot.process_movie_request (fun _ => some [m]) details text =
        [.adapter "search_movies", .adapter "get_movie_details",
         .send (details m.title) (some "Markdown") []]) ∧
    (∀ ms : List MovieBot.Movie, 2 ≤ ms.length →
      MovieBot.process_movie_request (fun _ => some ms) details text =
        [.adapter "search_movies",
         .send "Select the correct movie:" none
           (ms.map (fun m => ⟨m.title ++ " (" ++ m.year ++ ")", m.title⟩))]) := by
  refine ⟨rfl, rfl, fun m => rfl, fun ms h => ?_⟩
  have h1 : ¬ ms.length = 1 := by omega
  have h2 : ms.length > 1 := by omega
  simp [MovieBot.process_movie_request, h1, h2]

/-- Witness for C1 at a concrete two-result search. -/
theorem movie_request_outcomes_w :
    2 ≤ ([⟨"A", "2000"⟩, ⟨"B", "2001"⟩] : List MovieBot.Movie).length ∧
    MovieBot.process_movie_request
        (fun _ => some [⟨"A", "2000"⟩, ⟨"B", "2001"⟩]) (fun _ => "d") "x" =
      [.adapter "search_movies",
       .send "Select the correct movie:" none
         (([⟨"A", "2000"⟩, ⟨"B", "2001"⟩] : List MovieBot.Movie).map
           (fun m => ⟨m.title ++ " (" ++ m.year ++ ")", m.title⟩))] :=
  ⟨by decide,
   (movie_request_outcomes (fun _ => "d") "x").2.2.2
     [⟨"A", "2000"⟩, ⟨"B", "2001"⟩] (by decide)⟩

/-- C4: with a PendingUpload present, the `default` and `cancel` tags
run the same branch of `callback_query`: both answer the callback and
invoke `process_file_upload` with `custom_file_name=None`, and
finalizing with no custom name sends the file under its original name —
`cancel` finalizes rather than discards. -/
theorem default_and_cancel_finalize (now today : String)
    (details : String → String) :
    MovieBot.callback_query_effects now today details "default" =
      [.answerCallback none, .fileUpload none] ∧
    MovieBot.callback_query_effects now today details "cancel" =
      MovieBot.callback_query_effects now today details "default" ∧
    (∀ p : MovieBot.PendingUpload,
      MovieBot.process_file_upload p none = p.originalName) :=
  ⟨rfl, rfl, fun _ => rfl⟩

/-- C5: a callback tag outside the fixed set is treated as a movie
title: the branch answers the callback, fetches that title's details
from the movie adapter, and sends them as a Markdown message; a tag
inside the fixed set (e.g. `time`) runs its fixed branch instead, not
the movie-selection one. -/
theorem unknown_tag_is_movie_selection (now today : String)
    (details : String → String) (tag : String)
    (h : tag ∉ MovieBot.fixedTags) :
    MovieBot.callback_query_effects now today details tag =
      [.answerCallback none, .adapter "get_movie_details",
       .send (details tag) (some "Markdown") []] ∧
    MovieBot.callback_query_effects now today details "time" ≠
      [.answerCallback none, .adapter "get_movie_details",
       .send (details "time") (some "Markdown") []] := by
  constructor
  · simp only [MovieBot.fixedTags, List.mem_cons, List.not_mem_nil,
      not_or] at h
    obtain ⟨h1, h2, h3, h4, h5, h6, h7, h8, -⟩ := h
    simp [MovieBot.callback_query_effects, h1, h2, h3, h4, h5, h6, h7, h8]
  · intro hc
    have := congrArg List.length hc
    simp [MovieBot.callback_query_effects] at this

/-- Witness for C5 at the concrete tag "Inception". -/
theorem unknown_tag_is_movie_selection_w :
    "Inception" ∉ MovieBot.fixedTags ∧
    MovieBot.callback_query_effects "t" "d" (fun _ => "info") "Inception" =
      [.answerCallback none, .adapter "get_movie_details",
       .send "info" (some "Markdown") []] :=
  ⟨by decide,
   (unknown_tag_is_movie_selection "t" "d" (fun _ => "info") "Inception"
     (by decide)).1⟩

/-- C6: an exception raised after any prefix of a handler's try-block
is caught: the error path logs once and sends exactly one generic
apology, and leaves the next-step registration state exactly as it was
at the raise point (it is not reset).  Stated for `callback_query` (any
tag, any raise point) and for `send_welcome`. -/
theorem handler_exception_generic_reply (now today : String)
    (details : String → String) (tag : String) (s : MovieBot.NextStep)
    (k : Nat) :
    (MovieBot.callback_query_run now today details tag s (some k)).1 =
      MovieBot.runEffects s
        ((MovieBot.callback_query_effects now today details tag).take k) ∧
    MovieBot.userMessages
        (MovieBot.callback_query_run now today details tag s (some k)).2 =
      MovieBot.userMessages
        ((MovieBot.callback_query_effects now today details tag).take k) ++
        [MovieBot.genericOops] ∧
    MovieBot.Eff.logError "callback_query" ∈
      (MovieBot.callback_query_run now today details tag s (some k)).2 ∧
    (MovieBot.send_welcome_run s (some k)).1 = s ∧
    MovieBot.userMessages (MovieBot.send_welcome_run s (some k)).2 =
      MovieBot.userMessages
        (([.reply MovieBot.welcomeText MovieBot.welcomeButtons] :
            List MovieBot.Eff).take k) ++ [MovieBot.genericOops] := by
  refine ⟨rfl, ?_, ?_, ?_, ?_⟩
  · simp [MovieBot.callback_query_run, MovieBot.userMessages_append,
      MovieBot.userMessages]
  · simp [MovieBot.callback_query_run]
  · cases k with
    | zero => rfl
    | succ n => cases n <;> rfl
  · cases k with
    | zero => rfl
    | succ n => cases n <;> rfl

/-- C9: `/start` and `/help` run `send_welcome`, whose exception-free
run sends exactly one reply — the fixed welcome text with exactly the
five buttons Time, Date, Movie Details, Movie Ratings, URL Upload
(tags `time`, `date`, `movie_details`, `movie_ratings`, `url_upload`) —
arms no next-step state (the state is returned unchanged) and performs
no adapter call (the trace holds no `adapter` or `register` effect). -/
theorem send_welcome_fixed_menu (s : MovieBot.NextStep) :
    MovieBot.send_welcome_run s none =
      (s, [.reply "Hello! I'm a helpful bot. Choose an option:"
            [⟨"Time", "time"⟩, ⟨"Date", "date"⟩,
             ⟨"Movie Details", "movie_details"⟩,
             ⟨"Movie Ratings", "movie_ratings"⟩,
             ⟨"URL Upload", "url_upload"⟩]]) :=
  rfl

/-- C2: an authenticated `/post` with non-empty body first lists the
blog's posts; if some listed post is titled exactly "Draft Post", the
handler fetches it, updates it with its content replaced by the body,
and replies with the updated post's URL; otherwise it inserts a new
post with the body as content and replies with the new post's URL; if
the API raises an `HttpError`, the single reply surfaces the raw error
text. -/
theorem post_to_blogger_draft_update_or_create (api : BloggerBot.BlogApi)
    (text e : String) (items : List BloggerBot.Post)
    (found post updated newPost : BloggerBot.Post)
    (hbody : BloggerBot.messageBody text ≠ "") :
    (api.listPosts = .ok items →
      (items.find? BloggerBot.isDraftPost = some found →
        api.getPost found.id = .ok post →
        api.updatePost found.id
            { post with content := BloggerBot.messageBody text } =
          .ok updated →
        BloggerBot.post_to_blogger api true text =
          (["Post updated: " ++ updated.url],
           [.list, .get found.id,
            .update found.id
              { post with content := BloggerBot.messageBody text }])) ∧
      (items.find? BloggerBot.isDraftPost = none →
        api.insertPost "New Draft Post" (BloggerBot.messageBody text) =
          .ok newPost →
        BloggerBot.post_to_blogger api true text =
          (["New post created: " ++ newPost.url],
           [.list, .insert "New Draft Post"
              (BloggerBot.messageBody text)]))) ∧
    (api.listPosts = .httpError e →
      BloggerBot.post_to_blogger api true text =
        (["An error occurred: " ++ e], [.list])) := by
  refine ⟨fun hlist => ⟨fun hfind hget hupd => ?_, fun hfind hins => ?_⟩,
    fun hlist => ?_⟩
  · simp [BloggerBot.post_to_blogger, hbody, hlist, hfind, hget, hupd]
  · simp [BloggerBot.post_to_blogger, hbody, hlist, hfind, hins]
  · simp [BloggerBot.post_to_blogger, hbody, hlist]

/-- Witness for C2: a concrete blog holding a "Draft Post" and the
input "/post hello". -/
theorem post_to_blogger_draft_update_or_create_w :
    BloggerBot.post_to_blogger BloggerBot.demoApi true "/post hello" =
      (["Post updated: " ++ "http://b/p1"],
       [.list, .get "p1",
        .update "p1" ⟨"p1", "Draft Post", "hello", "http://b/p1"⟩]) :=
  ((post_to_blogger_draft_update_or_create BloggerBot.demoApi
      "/post hello" "" [⟨"p1", "Draft Post", "old", "http://b/p1"⟩]
      ⟨"p1", "Draft Post", "old", "http://b/p1"⟩
      ⟨"p1", "Draft Post", "old", "http://b/p1"⟩
      ⟨"p1", "Draft Post", "hello", "http://b/p1"⟩
      ⟨"p2", "x", "y", "z"⟩ (by decide)).1 rfl).1 (by decide) rfl (by decide)

/-- C3 (code bug): because `main` registers `post_to_blogger` as the
catch-all text handler, a plain message also passes through
`update.message.text[6:]`, so the first six characters of a
non-command message are dropped from the post body instead of the
entire message being the body: on "hello world" the handler posts
"world". -/
theorem catch_all_strips_first_six :
    BloggerBot.messageBody "hello world" = "world" ∧
    "world" ≠ "hello world" ∧
    BloggerBot.post_to_blogger BloggerBot.demoApiEmpty true "hello world" =
      (["New post created: " ++ "http://b/p2"],
       [.list, .insert "New Draft Post" "world"]) := by
  refine ⟨by decide, by decide, by decide⟩

/-- C7: a `/post` or catch-all invocation with no stored service handle
replies exactly one authenticate-first instruction and makes no Blogger
API call — for any API oracle and any message text, so no state of any
kind is consulted or changed. -/
theorem post_requires_auth (api : BloggerBot.BlogApi) (text : String) :
    BloggerBot.post_to_blogger api false text =
      (["You need to authenticate first. Use /authenticate."], []) :=
  rfl

/-- C10: an authenticated invocation whose text is empty after the
six-character command prefix is removed replies exactly one prompt for
content and makes no Blogger API call. -/
theorem post_empty_body_prompt (api : BloggerBot.BlogApi) (text : String)
    (h : BloggerBot.messageBody text = "") :
    BloggerBot.post_to_blogger api true text =
      (["Please provide the content for the post."], []) := by
  simp [BloggerBot.post_to_blogger, h]

/-- Witness for C10 at the concrete input "/post " (six characters). -/
theorem post_empty_body_prompt_w :
    BloggerBot.messageBody "/post " = "" ∧
    BloggerBot.post_to_blogger BloggerBot.demoApiEmpty true "/post " =
      (["Please provide the content for the post."], []) :=
  ⟨by decide,
   post_empty_body_prompt BloggerBot.demoApiEmpty "/post " (by decide)⟩

/-- C8 (code bug): with a stored invalid credential that is expired and
holds a refresh token, `authenticate_google_account` does not refresh
and persist — it raises an uncaught `NameError` because `Request` is
bound by no import in src/main.py; on the other invalid-credential
branch the full interactive flow does run and the credential is
persisted to disk before the service handle is built. -/
theorem authenticate_refresh_name_error :
    BloggerBot.authenticate_google_account
        (some { valid := false, expired := true, refresh_token := true })
        { valid := true, expired := false, refresh_token := true } true =
      .error (.nameError "Request") ∧
    BloggerBot.authenticate_google_account
        (some { valid := false, expired := true, refresh_token := false })
        { valid := true, expired := false, refresh_token := true } true =
      .ok { steps := [.loadTokenPickle, .runLocalServer,
                      .saveTokenPickle, .buildService],
            disk := some { valid := true, expired := false,
                           refresh_token := true },
            service := some { valid := true, expired := false,
                              refresh_token := true } } :=
  ⟨rfl, rfl⟩
